import Mathlib

/-!
Shallow embedding of `src/web_translate_client.py` (class `WebTranslateClient`),
a WebSocket client for a streaming speech-translation service.

Modelling conventions:
  * The mutable Python object state is the record `ClientState`; methods become
    pure functions from state (plus oracles for the external transport) to a
    new state, a list of observable events, and the data handed to the
    transport.
  * Callback slots (`self.on_*_callback`) are `Option Nat`: `none` models a
    `None` slot, `some k` an arbitrary registered handler (Python function
    objects are always truthy, so only presence matters to the dispatch
    conditions).  Invoking a callback is recorded as an `Event`.
  * `logger.warning` / `logger.error` / the probe-success `logger.info` call
    sites inside the modelled methods are recorded as dedicated `Event`
    constructors, so that "only logged" and "surfaced via callback" paths are
    distinguishable.  `logger.debug` calls are not modelled.
  * The outcome of each transport interaction (a received unit, or whether a
    `websocket.send` raises) is an input oracle, since the remote side is
    external to the program.
  * Wall-clock reads (`time.time()`) are a `Nat` parameter `now`.
  * Bytes are `Nat` values `< 256`; `base64.b64encode` / `base64.b64decode`
    are modelled on canonical inputs (the alphabet-and-padding strings that
    `b64encode` itself produces; Python additionally discards non-alphabet
    characters before decoding, which no claim depends on).
-/

/-- Observable effects of the client: callback invocations and the
`logger.warning` / `logger.error` / probe-success `logger.info` call sites of
the modelled methods. -/
inductive Event where
  | onText (s : String)
  | onAudio (bs : List Nat)
  | onError (s : String)
  | onClose (code : Option Nat)
  | logWarnNotConnected
  | logSendAudioFailed
  | logSendImageFailed
  | logSendEndFailed
  | logRecvTimeout
  | logProbeOk
  | logProbeFailed
  | logConnClosed
  | logRecvFailed (s : String)
  | logDecodeAudioFailed
  | logServerError
  deriving DecidableEq, Repr

/-- The mutable state of a `WebTranslateClient` instance: the fields set in
`__init__` that the modelled methods read or write (`self.websocket` is kept
only as presence, since the truthiness test `not self.websocket` is all the
code uses of it outside the transport calls). -/
structure ClientState where
  is_connected : Bool
  websocket : Bool
  last_activity_time : Nat
  on_text_callback : Option Nat
  on_audio_callback : Option Nat
  on_error_callback : Option Nat
  on_close_callback : Option Nat
  on_open_callback : Option Nat
  deriving DecidableEq, Repr

/-- `set_callbacks`: the method body assigns every one of the five slots from
its parameter of the same name; a Python caller who omits a parameter passes
its default `None`, modelled here as `none`. -/
def set_callbacks (st : ClientState)
    (on_text on_audio on_error on_close on_open : Option Nat) : ClientState :=
  { st with
    on_text_callback := on_text
    on_audio_callback := on_audio
    on_error_callback := on_error
    on_close_callback := on_close
    on_open_callback := on_open }

/-- The base64 alphabet used by `base64.b64encode` / `base64.b64decode`. -/
def b64alphabet : List Char :=
  "ABCDEFGHIJKLMNOPQRSTUVWXYZabcdefghijklmnopqrstuvwxyz0123456789+/".toList

/-- Character for a 6-bit group. -/
def sextetChar (n : Nat) : Char := b64alphabet.getD n 'A'

/-- Value of an alphabet character; `none` for a character outside the
alphabet (in particular for the padding character). -/
def sextetVal (c : Char) : Option Nat := b64alphabet.indexOf? c

/-- `base64.b64encode` on a byte list, producing the character list of the
(ASCII-decoded) base64 string: 3-byte groups become 4 alphabet characters, a
trailing 1- or 2-byte group is padded with `=`. -/
def b64encode : List Nat → List Char
  | [] => []
  | [a] => [sextetChar (a / 4), sextetChar (a % 4 * 16), '=', '=']
  | [a, b] => [sextetChar (a / 4), sextetChar (a % 4 * 16 + b / 16),
      sextetChar (b % 16 * 4), '=']
  | a :: b :: c :: rest =>
      sextetChar (a / 4) :: sextetChar (a % 4 * 16 + b / 16) ::
      sextetChar (b % 16 * 4 + c / 64) :: sextetChar (c % 64) :: b64encode rest

/-- Decoding of the final 4-character quad of a base64 string, honouring `=`
padding in the last one or two positions (Python ignores the unused low bits
of the last data character, as this does). -/
def decodeQuadFinal (w x y z : Char) : Option (List Nat) :=
  if z = '=' then
    if y = '=' then
      match sextetVal w, sextetVal x with
      | some a, some b => some [a * 4 + b / 16]
      | _, _ => none
    else
      match sextetVal w, sextetVal x, sextetVal y with
      | some a, some b, some c => some [a * 4 + b / 16, b % 16 * 16 + c / 4]
      | _, _, _ => none
  else
    match sextetVal w, sextetVal x, sextetVal y, sextetVal z with
    | some a, some b, some c, some d =>
        some [a * 4 + b / 16, b % 16 * 16 + c / 4, c % 4 * 64 + d]
    | _, _, _, _ => none

/-- `base64.b64decode` on canonical input: consumes 4-character quads; a
length that is not a multiple of 4 is the "incorrect padding" error (`none`),
as raised by Python. -/
def b64decode : List Char → Option (List Nat)
  | [] => some []
  | w :: x :: y :: z :: rest =>
      if rest = [] then decodeQuadFinal w x y z
      else
        match sextetVal w, sextetVal x, sextetVal y, sextetVal z,
            b64decode rest with
        | some a, some b, some c, some d, some tail =>
            some ((a * 4 + b / 16) :: (b % 16 * 16 + c / 4) :: (c % 4 * 64 + d) :: tail)
        | _, _, _, _, _ => none
  | _ => none

/-- Wire messages the client hands to `websocket.send` in the modelled
methods (the JSON dicts of `send_audio_data`, `send_image_frame`,
`send_end_signal` and the heartbeat ping, keeping the fields the claims are
about). -/
inductive OutMsg where
  | audioMsg (dataField : List Char)
  | imageMsg (dataField : List Char)
  | endMsg
  | heartbeatMsg
  deriving DecidableEq, Repr

/-- The base64 payload carried by an outbound audio message
(`message["input"]["audio"]["data"]`). -/
def audioWireData : OutMsg → Option (List Char)
  | OutMsg.audioMsg d => some d
  | _ => none

/-- `send_audio_data`: guard on `is_connected` / `websocket`, base64-encode,
send.  `sendErr = none` models a send that returns, `some e` a send raising an
exception with text `e` (caught: log plus `on_error` callback).  The third
component is the message handed to `websocket.send`, `none` when the
transport was never contacted. -/
def send_audio_data (st : ClientState) (now : Nat) (audio : List Nat)
    (sendErr : Option String) : ClientState × List Event × Option OutMsg :=
  if ¬ st.is_connected ∨ ¬ st.websocket then
    (st, [Event.logWarnNotConnected], none)
  else
    let msg := OutMsg.audioMsg (b64encode audio)
    match sendErr with
    | none => ({ st with last_activity_time := now }, [], some msg)
    | some e =>
        (st, Event.logSendAudioFailed ::
          (if st.on_error_callback.isSome then [Event.onError e] else []),
          some msg)

/-- `send_image_frame`: same shape as `send_audio_data` with the image
payload field. -/
def send_image_frame (st : ClientState) (now : Nat) (image : List Nat)
    (sendErr : Option String) : ClientState × List Event × Option OutMsg :=
  if ¬ st.is_connected ∨ ¬ st.websocket then
    (st, [Event.logWarnNotConnected], none)
  else
    let msg := OutMsg.imageMsg (b64encode image)
    match sendErr with
    | none => ({ st with last_activity_time := now }, [], some msg)
    | some e =>
        (st, Event.logSendImageFailed ::
          (if st.on_error_callback.isSome then [Event.onError e] else []),
          some msg)

/-- `send_end_signal`: guard, then send `input.end = true`; its except block
only logs — it invokes no callback. -/
def send_end_signal (st : ClientState) (now : Nat)
    (sendErr : Option String) : ClientState × List Event × Option OutMsg :=
  if ¬ st.is_connected ∨ ¬ st.websocket then
    (st, [Event.logWarnNotConnected], none)
  else
    match sendErr with
    | none => ({ st with last_activity_time := now }, [], some OutMsg.endMsg)
    | some _ => (st, [Event.logSendEndFailed], some OutMsg.endMsg)

/-- The `error` object of an inbound error message: `"code"` / `"message"`
keys may each be absent (`dict.get` with defaults `"unknown"` /
`"Unknown error"`). -/
structure ErrorInfo where
  code : Option String
  message : Option String
  deriving DecidableEq, Repr

/-- The `output` object of an inbound success message: optional `"text"` and
`"audio"` (base64 string) keys. -/
structure OutputInfo where
  text : Option String
  audio : Option String
  deriving DecidableEq, Repr

/-- A parsed inbound JSON message, keeping the keys `_process_message`
inspects: `"output"`, `"error"` and `"type"`. -/
structure MsgData where
  output : Option OutputInfo
  error : Option ErrorInfo
  type : Option String
  deriving DecidableEq, Repr

/-- `_process_message`: dispatch one parsed message.  `output` is checked
first (its `text` then its `audio`, the audio only when the string is truthy,
i.e. non-empty, and its base64 decode failure is caught locally and only
logged), `elif error` formats `"code: message"` for the error callback,
`elif type == "heartbeat_response"` (and any other message) produces no
event.  The method mutates no state; its result is the event list. -/
def processMessage (st : ClientState) (data : MsgData) : List Event :=
  match data.output with
  | some out =>
      (match out.text with
       | some t => if st.on_text_callback.isSome then [Event.onText t] else []
       | none => []) ++
      (match out.audio with
       | some a =>
           if a ≠ "" then
             match b64decode a.toList with
             | some bytes =>
                 if st.on_audio_callback.isSome then [Event.onAudio bytes] else []
             | none => [Event.logDecodeAudioFailed]
           else []
       | none => [])
  | none =>
      match data.error with
      | some err =>
          Event.logServerError ::
            (if st.on_error_callback.isSome then
              [Event.onError ((err.code.getD "unknown") ++ ": " ++
                (err.message.getD "Unknown error"))]
            else [])
      | none => []

/-- One iteration's transport outcome for `_receive_loop`:
  * `frame (Except.ok d)` — a unit arrived and `json.loads` parsed it to `d`;
  * `frame (Except.error e)` — a unit arrived but `json.loads` raised `e`
    (caught by the loop's generic handler);
  * `timedOut ok` — `asyncio.wait_for` raised `TimeoutError`; `ok` is whether
    the liveness-probe heartbeat send then succeeds;
  * `connClosed code` — `recv` raised `ConnectionClosed` with close code
    `code` (`none` when the exception carries no code). -/
inductive RecvOutcome where
  | frame (parsed : Except String MsgData)
  | timedOut (probeOk : Bool)
  | connClosed (code : Option Nat)
  deriving Repr

/-- One iteration of the `while` body of `_receive_loop`: new state, events,
and whether the loop continues (`false` = `break`). -/
def receiveStep (now : Nat) (st : ClientState) (o : RecvOutcome) :
    ClientState × List Event × Bool :=
  match o with
  | RecvOutcome.frame (Except.ok data) =>
      ({ st with last_activity_time := now }, processMessage st data, true)
  | RecvOutcome.frame (Except.error e) =>
      ({ st with last_activity_time := now },
        Event.logRecvFailed e ::
          (if st.on_error_callback.isSome then [Event.onError e] else []),
        true)
  | RecvOutcome.timedOut true => (st, [Event.logRecvTimeout, Event.logProbeOk], true)
  | RecvOutcome.timedOut false =>
      ({ st with is_connected := false },
        [Event.logRecvTimeout, Event.logProbeFailed], false)
  | RecvOutcome.connClosed code =>
      ({ st with is_connected := false },
        Event.logConnClosed ::
          (if st.on_close_callback.isSome then [Event.onClose code] else []),
        false)

/-- `_receive_loop`: `while self.is_connected`, consuming one transport
outcome (paired with the `time.time()` value of that iteration) per
iteration; a `break` stops before the rest of the trace. -/
def receiveLoop (st : ClientState) (trace : List (Nat × RecvOutcome)) :
    ClientState × List Event :=
  match trace with
  | [] => (st, [])
  | (now, o) :: rest =>
      if st.is_connected then
        let r := receiveStep now st o
        if r.2.2 then
          let r2 := receiveLoop r.1 rest
          (r2.1, r.2.1 ++ r2.2)
        else (r.1, r.2.1)
      else (st, [])

/-- Heartbeat events: a ping handed to `websocket.send`, or a send that
raised (logged). -/
inductive HBEvent where
  | ping
  | pingFailed
  deriving DecidableEq, Repr

/-- The environment of one `_heartbeat_loop` iteration.  `self.is_connected`
is shared with the receive loop and with `close()`, so each of the three
reads in an iteration is an oracle: at the `while` condition, after the
25-second sleep, and inside the send-failure handler.  `now` is the
`time.time()` value of the staleness check, `sendOk` whether
`websocket.send` returns. -/
structure HBTick where
  connAtTop : Bool
  connAfterSleep : Bool
  now : Nat
  sendOk : Bool
  connInHandler : Bool
  deriving DecidableEq, Repr

/-- One iteration of `_heartbeat_loop` acting on `last_activity_time`:
result is the new `last_activity_time`, the events, and whether the loop
continues.  On a send failure the body breaks only `if not
self.is_connected`. -/
def heartbeatStep (la : Nat) (t : HBTick) : Nat × List HBEvent × Bool :=
  if ¬ t.connAtTop then (la, [], false)
  else if ¬ t.connAfterSleep then (la, [], false)
  else if t.now - la > 30 then
    if t.sendOk then (t.now, [HBEvent.ping], true)
    else (la, [HBEvent.pingFailed], t.connInHandler)
  else (la, [], true)

/-- `_heartbeat_loop` over a tick trace. -/
def heartbeatLoop (la : Nat) (ticks : List HBTick) : Nat × List HBEvent :=
  match ticks with
  | [] => (la, [])
  | t :: rest =>
      let r := heartbeatStep la t
      if r.2.2 then
        let r2 := heartbeatLoop r.1 rest
        (r2.1, r.2.1 ++ r2.2)
      else (r.1, r.2.1)

/-- A client state with all five callbacks registered, used as the concrete
instance in witnesses and counterexamples. -/
def sampleState : ClientState :=
  { is_connected := true
    websocket := true
    last_activity_time := 5
    on_text_callback := some 1
    on_audio_callback := some 2
    on_error_callback := some 3
    on_close_callback := some 4
    on_open_callback := some 5 }

/-- `sampleState` after the connection is gone. -/
def closedState : ClientState := { sampleState with is_connected := false }

/-- Each alphabet character decodes back to its 6-bit value. -/
theorem sextetVal_sextetChar : ∀ n, n < 64 → sextetVal (sextetChar n) = some n := by
  decide

/-- No alphabet character is the padding character. -/
theorem sextetChar_ne_pad : ∀ n, n < 64 → sextetChar n ≠ '=' := by
  decide

/-- Encoding yields the empty string only for the empty payload. -/
theorem b64encode_eq_nil_iff (l : List Nat) : b64encode l = [] ↔ l = [] := by
  match l with
  | [] => simp [b64encode]
  | [a] => simp [b64encode]
  | [a, b] => simp [b64encode]
  | a :: b :: c :: rest => simp [b64encode]

/-- Base64 round-trip: decoding an encoded byte list (each byte `< 256`)
recovers it. -/
theorem b64_roundtrip : ∀ (bs : List Nat), (∀ b ∈ bs, b < 256) →
    b64decode (b64encode bs) = some bs
  | [], _ => rfl
  | [a], h => by
      have ha : a < 256 := h a (by simp)
      have h1 := sextetVal_sextetChar (a / 4) (by omega)
      have h2 := sextetVal_sextetChar (a % 4 * 16) (by omega)
      simp only [b64encode, b64decode, decodeQuadFinal, if_pos rfl, h1, h2,
        reduceCtorEq, if_true]
      have e1 : a / 4 * 4 + a % 4 * 16 / 16 = a := by omega
      rw [e1]
  | [a, b], h => by
      have ha : a < 256 := h a (by simp)
      have hb : b < 256 := h b (by simp)
      have h1 := sextetVal_sextetChar (a / 4) (by omega)
      have h2 := sextetVal_sextetChar (a % 4 * 16 + b / 16) (by omega)
      have h3 := sextetVal_sextetChar (b % 16 * 4) (by omega)
      have hy := sextetChar_ne_pad (b % 16 * 4) (by omega)
      simp only [b64encode, b64decode, decodeQuadFinal, if_pos rfl, if_neg hy,
        h1, h2, h3]
      have e1 : a / 4 * 4 + (a % 4 * 16 + b / 16) / 16 = a := by omega
      have e2 : (a % 4 * 16 + b / 16) % 16 * 16 + b % 16 * 4 / 4 = b := by omega
      rw [e1, e2]
      simp
  | a :: b :: c :: rest, h => by
      have ha : a < 256 := h a (by simp)
      have hb : b < 256 := h b (by simp)
      have hc : c < 256 := h c (by simp)
      have ih := b64_roundtrip rest (fun x hx => h x (by simp [hx]))
      have h1 := sextetVal_sextetChar (a / 4) (by omega)
      have h2 := sextetVal_sextetChar (a % 4 * 16 + b / 16) (by omega)
      have h3 := sextetVal_sextetChar (b % 16 * 4 + c / 64) (by omega)
      have h4 := sextetVal_sextetChar (c % 64) (by omega)
      have hz := sextetChar_ne_pad (c % 64) (by omega)
      have e1 : a / 4 * 4 + (a % 4 * 16 + b / 16) / 16 = a := by omega
      have e2 : (a % 4 * 16 + b / 16) % 16 * 16 + (b % 16 * 4 + c / 64) / 4 = b := by
        omega
      have e3 : (b % 16 * 4 + c / 64) % 4 * 64 + c % 64 = c := by omega
      match rest with
      | [] =>
          simp only [b64encode, b64decode, decodeQuadFinal, if_pos rfl,
            if_neg hz, h1, h2, h3, h4]
          rw [e1, e2, e3]
          simp
      | r :: rs =>
          have hne : b64encode (r :: rs) ≠ [] := by
            simp [b64encode_eq_nil_iff]
          simp only [b64encode, b64decode, if_neg hne, h1, h2, h3, h4, ih] at *
          rw [e1, e2, e3]

/-- Events that announce a terminal condition of the receive loop: the
"closed" callback, the "error" callback, or the logged error of a failed
liveness probe. -/
def isTerminalNotice : Event → Bool
  | Event.onClose _ => true
  | Event.onError _ => true
  | Event.logProbeFailed => true
  | _ => false

/-- An inbound success message carrying only a text field. -/
def goodTextMsg (s : String) : MsgData :=
  { output := some { text := some s, audio := none }, error := none, type := none }

/-- An inbound success message whose audio field `"A"` is not valid base64
(a single character is an incorrect-padding error for `base64.b64decode`). -/
def badAudioMsg : MsgData :=
  { output := some { text := none, audio := some "A" }, error := none, type := none }

/-- An inbound error message with explicit code and message fields. -/
def errorMsg (c m : String) : MsgData :=
  { output := none, error := some { code := some c, message := some m }, type := none }

/-- An inbound success message with a text field and an empty audio field. -/
def emptyAudioMsg (t : String) : MsgData :=
  { output := some { text := some t, audio := some "" }, error := none, type := none }

/-- C1: in the receive loop, a receive timeout whose liveness-probe heartbeat
send succeeds leaves the state unchanged (still connected) and the loop
continues with the rest of the trace; a timeout whose probe send fails sets
`is_connected := false`, stops the loop before the rest of the trace, and
produces exactly one terminal notice — the logged probe-failure error path
(the code fires no callback there). -/
theorem c1_receive_timeout_probe (st : ClientState) (now : Nat)
    (rest : List (Nat × RecvOutcome)) (h : st.is_connected = true) :
    receiveStep now st (RecvOutcome.timedOut true) =
      (st, [Event.logRecvTimeout, Event.logProbeOk], true) ∧
    (receiveLoop st ((now, RecvOutcome.timedOut true) :: rest)).2 =
      Event.logRecvTimeout :: Event.logProbeOk :: (receiveLoop st rest).2 ∧
    receiveLoop st ((now, RecvOutcome.timedOut false) :: rest) =
      ({ st with is_connected := false },
        [Event.logRecvTimeout, Event.logProbeFailed]) ∧
    (receiveLoop st ((now, RecvOutcome.timedOut false) :: rest)).2.countP
      isTerminalNotice = 1 := by
  refine ⟨rfl, ?_, ?_, ?_⟩ <;>
    simp [receiveLoop, receiveStep, h, isTerminalNotice, List.countP_cons]

/-- C1 witness at a concrete state and trace. -/
theorem c1_receive_timeout_probe_witness :
    receiveLoop sampleState [(100, RecvOutcome.timedOut false)] =
      ({ sampleState with is_connected := false },
        [Event.logRecvTimeout, Event.logProbeFailed]) :=
  (c1_receive_timeout_probe sampleState 100 [] rfl).2.2.1

/-- C2 counterexample: with an audio handler registered, a `set_callbacks`
call that provides only `on_text` clears the audio slot to `none` instead of
retaining the previous handler `some 2`. -/
theorem c2_omitted_slot_cleared_cex :
    sampleState.on_audio_callback = some 2 ∧
    (set_callbacks sampleState (some 9) none none none none).on_audio_callback
      = none := by
  decide

/-- C2 (amended): every `set_callbacks` call replaces all five slots with
exactly its arguments — an omitted slot is reset to `none` (Python's default
`None`), discarding the previous handler rather than retaining it. -/
theorem c2_set_callbacks_replaces_all (st : ClientState)
    (t a e c o : Option Nat) :
    (set_callbacks st t a e c o).on_text_callback = t ∧
    (set_callbacks st t a e c o).on_audio_callback = a ∧
    (set_callbacks st t a e c o).on_error_callback = e ∧
    (set_callbacks st t a e c o).on_close_callback = c ∧
    (set_callbacks st t a e c o).on_open_callback = o :=
  ⟨rfl, rfl, rfl, rfl, rfl⟩

/-- A heartbeat tick on which the send fails while `is_connected` is observed
true throughout. -/
def failTickConnected : HBTick :=
  { connAtTop := true, connAfterSleep := true, now := 100,
    sendOk := false, connInHandler := true }

/-- A heartbeat tick on which the send succeeds. -/
def okTick : HBTick :=
  { connAtTop := true, connAfterSleep := true, now := 200,
    sendOk := true, connInHandler := true }

/-- C3 counterexample: a run in which the heartbeat send fails on the first
tick while `is_connected` stays true, yet the monitor's loop continues and
sends another heartbeat on the next tick — the monitor does retry. -/
theorem c3_monitor_retries_cex :
    heartbeatLoop 0 [failTickConnected, okTick] =
      (200, [HBEvent.pingFailed, HBEvent.ping]) := by
  decide

/-- C3 (amended): on a tick whose heartbeat send fails, the body breaks only
`if not self.is_connected`: the loop terminates exactly when `is_connected`
is observed false in the failure handler, and otherwise continues (and may
send again on a later tick); `last_activity_time` is not updated by the
failed send. -/
theorem c3_send_failure_break_condition (la : Nat) (t : HBTick)
    (h1 : t.connAtTop = true) (h2 : t.connAfterSleep = true)
    (h3 : t.now - la > 30) (h4 : t.sendOk = false) :
    heartbeatStep la t = (la, [HBEvent.pingFailed], t.connInHandler) := by
  simp [heartbeatStep, h1, h2, h3, h4]

/-- C3 witness at a concrete tick whose handler observes a dead connection. -/
theorem c3_send_failure_break_condition_witness :
    heartbeatStep 0
      { connAtTop := true, connAfterSleep := true, now := 50,
        sendOk := false, connInHandler := false } = (0, [HBEvent.pingFailed], false) :=
  c3_send_failure_break_condition 0 _ rfl rfl (by decide) rfl

/-- C4 counterexample: a receive timeout whose liveness-probe heartbeat send
succeeds at time 100 leaves `last_activity_time` at its old value 5 — this
successful heartbeat-ping send does not update the last-activity timestamp. -/
theorem c4_probe_send_no_update_cex :
    (receiveStep 100 sampleState (RecvOutcome.timedOut true)).1.last_activity_time
      = 5 ∧
    (receiveStep 100 sampleState (RecvOutcome.timedOut true)).1.last_activity_time
      ≠ 100 := by
  decide

/-- C4 (amended): `last_activity_time` is set to the current time on every
successful receive and on every successful send in `send_audio_data`,
`send_image_frame`, `send_end_signal` and the heartbeat monitor's ping; the
liveness-probe ping sent by the receive loop after a timeout, however, leaves
it unchanged even when the send succeeds. -/
theorem c4_last_activity_updates (st : ClientState) (now : Nat)
    (bs : List Nat) (d : MsgData) (la : Nat) (t : HBTick)
    (hc : st.is_connected = true) (hw : st.websocket = true)
    (ht : t.connAtTop = true) (hs : t.connAfterSleep = true)
    (hidle : t.now - la > 30) (hok : t.sendOk = true) :
    (receiveStep now st (RecvOutcome.frame (Except.ok d))).1.last_activity_time
      = now ∧
    (send_audio_data st now bs none).1.last_activity_time = now ∧
    (send_image_frame st now bs none).1.last_activity_time = now ∧
    (send_end_signal st now none).1.last_activity_time = now ∧
    (heartbeatStep la t).1 = t.now ∧
    (receiveStep now st (RecvOutcome.timedOut true)).1.last_activity_time
      = st.last_activity_time := by
  refine ⟨rfl, ?_, ?_, ?_, ?_, rfl⟩ <;>
    simp [send_audio_data, send_image_frame, send_end_signal, heartbeatStep,
      hc, hw, ht, hs, hidle, hok]

/-- C4 witness at concrete state, tick and payload. -/
theorem c4_last_activity_updates_witness :
    (send_audio_data sampleState 100 [1, 2] none).1.last_activity_time = 100 :=
  (c4_last_activity_updates sampleState 100 [1, 2] (goodTextMsg "x") 0 okTick
    rfl rfl rfl rfl (by decide) rfl).2.1

/-- C5 counterexample: with an error handler registered, a failing
`send_end_signal` produces only the logged error — the "error" callback is
not invoked. -/
theorem c5_end_signal_no_error_callback_cex :
    sampleState.on_error_callback.isSome = true ∧
    (send_end_signal sampleState 100 (some "boom")).2.1
      = [Event.logSendEndFailed] := by
  decide

/-- C5 (amended): when a transport send raises while connected,
`send_audio_data` and `send_image_frame` log the failure and surface it via
the "error" callback, while `send_end_signal` only logs it (no callback); in
all three the session state is returned unchanged. -/
theorem c5_send_failure_surfacing (st : ClientState) (now : Nat)
    (bs : List Nat) (e : String) (hc : st.is_connected = true)
    (hw : st.websocket = true) (he : st.on_error_callback.isSome = true) :
    send_audio_data st now bs (some e) =
      (st, [Event.logSendAudioFailed, Event.onError e],
        some (OutMsg.audioMsg (b64encode bs))) ∧
    send_image_frame st now bs (some e) =
      (st, [Event.logSendImageFailed, Event.onError e],
        some (OutMsg.imageMsg (b64encode bs))) ∧
    send_end_signal st now (some e) =
      (st, [Event.logSendEndFailed], some OutMsg.endMsg) := by
  refine ⟨?_, ?_, ?_⟩ <;>
    simp [send_audio_data, send_image_frame, send_end_signal, hc, hw, he]

/-- C5 witness at a concrete state and error. -/
theorem c5_send_failure_surfacing_witness :
    send_end_signal sampleState 100 (some "boom") =
      (sampleState, [Event.logSendEndFailed], some OutMsg.endMsg) :=
  (c5_send_failure_surfacing sampleState 100 [1] "boom" rfl rfl rfl).2.2

/-- C6: whenever `is_connected` is false, each of the three send operations
returns at once with the state unchanged, only the "not connected" warning,
and no message handed to the transport (the `none` in the third component);
being total functions, they model the method bodies returning normally
without raising. -/
theorem c6_closed_sends_inert (st : ClientState) (now : Nat)
    (bs : List Nat) (err : Option String) (h : st.is_connected = false) :
    send_audio_data st now bs err = (st, [Event.logWarnNotConnected], none) ∧
    send_image_frame st now bs err = (st, [Event.logWarnNotConnected], none) ∧
    send_end_signal st now err = (st, [Event.logWarnNotConnected], none) := by
  refine ⟨?_, ?_, ?_⟩ <;>
    simp [send_audio_data, send_image_frame, send_end_signal, h]

/-- C6 witness at a concrete closed state. -/
theorem c6_closed_sends_inert_witness :
    send_audio_data closedState 100 [1, 2] none =
      (closedState, [Event.logWarnNotConnected], none) :=
  (c6_closed_sends_inert closedState 100 [1, 2] none rfl).1

/-- The audio string of `badAudioMsg` fails base64 decoding. -/
theorem badAudio_decode_fails : b64decode ['A'] = none := by decide

/-- C7 counterexample: a well-formed output frame whose base64 audio field
fails to decode, between two well-formed text frames, produces zero "error"
callback invocations — the decode failure is only logged
(`logDecodeAudioFailed`), even though an error handler is registered. -/
theorem c7_audio_decode_no_error_callback_cex :
    sampleState.on_error_callback.isSome = true ∧
    (receiveLoop sampleState
      [(10, RecvOutcome.frame (Except.ok (goodTextMsg "a"))),
       (11, RecvOutcome.frame (Except.ok badAudioMsg)),
       (12, RecvOutcome.frame (Except.ok (goodTextMsg "b")))]).2 =
      [Event.onText "a", Event.logDecodeAudioFailed, Event.onText "b"] := by
  decide

/-- C7 (amended): a malformed-JSON inbound message surfaces via the "error"
callback exactly once and the loop continues, with well-formed messages
before and after still dispatched and the session still connected; an output
frame whose base64 audio field fails to decode is likewise caught per-message
and the loop continues, but it is only logged — the "error" callback is not
invoked for it. -/
theorem c7_decode_failure_handling (st : ClientState) (e a b : String)
    (n1 n2 n3 : Nat) (hc : st.is_connected = true)
    (htext : st.on_text_callback = some 1)
    (herr : st.on_error_callback = some 3) :
    receiveLoop st
      [(n1, RecvOutcome.frame (Except.ok (goodTextMsg a))),
       (n2, RecvOutcome.frame (Except.error e)),
       (n3, RecvOutcome.frame (Except.ok (goodTextMsg b)))] =
      ({ st with last_activity_time := n3 },
        [Event.onText a, Event.logRecvFailed e, Event.onError e,
          Event.onText b]) ∧
    receiveLoop st
      [(n1, RecvOutcome.frame (Except.ok (goodTextMsg a))),
       (n2, RecvOutcome.frame (Except.ok badAudioMsg)),
       (n3, RecvOutcome.frame (Except.ok (goodTextMsg b)))] =
      ({ st with last_activity_time := n3 },
        [Event.onText a, Event.logDecodeAudioFailed, Event.onText b]) := by
  refine ⟨?_, ?_⟩ <;>
    simp [receiveLoop, receiveStep, processMessage, goodTextMsg, badAudioMsg,
      hc, htext, herr, badAudio_decode_fails]

/-- C7 witness at a concrete state and messages. -/
theorem c7_decode_failure_handling_witness :
    receiveLoop sampleState
      [(10, RecvOutcome.frame (Except.ok (goodTextMsg "a"))),
       (11, RecvOutcome.frame (Except.error "bad json")),
       (12, RecvOutcome.frame (Except.ok (goodTextMsg "b")))] =
      ({ sampleState with last_activity_time := 12 },
        [Event.onText "a", Event.logRecvFailed "bad json",
          Event.onError "bad json", Event.onText "b"]) :=
  (c7_decode_failure_handling sampleState "bad json" "a" "b" 10 11 12
    rfl rfl rfl).1

/-- C8: round-trip — the base64 data field of the wire message that
`send_audio_data` hands to the transport, decoded the way the dispatcher
decodes inbound audio (`base64.b64decode`), yields the original bytes. -/
theorem c8_audio_roundtrip (st : ClientState) (now : Nat) (bs : List Nat)
    (hc : st.is_connected = true) (hw : st.websocket = true)
    (hbytes : ∀ b ∈ bs, b < 256) :
    ((send_audio_data st now bs none).2.2.bind audioWireData).bind b64decode
      = some bs := by
  simp [send_audio_data, hc, hw, audioWireData, b64_roundtrip bs hbytes]

/-- C8 witness on the bytes of "hello". -/
theorem c8_audio_roundtrip_witness :
    ((send_audio_data sampleState 7 [104, 101, 108, 108, 111] none).2.2.bind
      audioWireData).bind b64decode = some [104, 101, 108, 108, 111] :=
  c8_audio_roundtrip sampleState 7 [104, 101, 108, 108, 111] rfl rfl
    (by decide)

/-- C9: an inbound error frame with code `c` and message `m`, received while
connected with an error handler registered, fires the "error" callback with
the formatted string `c ++ ": " ++ m`; the step leaves `is_connected` true
(only `last_activity_time` changes) and the loop continues. -/
theorem c9_error_frame_dispatch (st : ClientState) (now : Nat) (c m : String)
    (hc : st.is_connected = true) (he : st.on_error_callback = some 3) :
    receiveStep now st (RecvOutcome.frame (Except.ok (errorMsg c m))) =
      ({ st with last_activity_time := now },
        [Event.logServerError, Event.onError (c ++ ": " ++ m)], true) ∧
    ({ st with last_activity_time := now }).is_connected = true := by
  constructor
  · simp [receiveStep, processMessage, errorMsg, he]
  · simpa using hc

/-- C9 witness on the spec's example frame. -/
theorem c9_error_frame_dispatch_witness :
    receiveStep 100 sampleState
      (RecvOutcome.frame (Except.ok (errorMsg "E1" "bad audio"))) =
      ({ sampleState with last_activity_time := 100 },
        [Event.logServerError, Event.onError ("E1" ++ ": " ++ "bad audio")],
        true) :=
  (c9_error_frame_dispatch sampleState 100 "E1" "bad audio" rfl rfl).1

/-- C10: an output frame whose audio field is the empty string does not fire
the "audio" callback — the empty string fails the truthiness test `output
["audio"]` before any base64 decoding — while the text field of the same
frame is still dispatched; the loop continues. -/
theorem c10_empty_audio_dropped (st : ClientState) (now : Nat) (t : String)
    (htext : st.on_text_callback = some 1) :
    receiveStep now st (RecvOutcome.frame (Except.ok (emptyAudioMsg t))) =
      ({ st with last_activity_time := now }, [Event.onText t], true) := by
  simp [receiveStep, processMessage, emptyAudioMsg, htext]

/-- C10 witness at a concrete state (whose audio handler is registered, so
the dropped audio is not explained by an absent handler). -/
theorem c10_empty_audio_dropped_witness :
    receiveStep 100 sampleState
      (RecvOutcome.frame (Except.ok (emptyAudioMsg "hi"))) =
      ({ sampleState with last_activity_time := 100 },
        [Event.onText "hi"], true) :=
  c10_empty_audio_dropped sampleState 100 "hi" rfl
